import Mathlib

/-!
Shallow embedding of the contract-lifecycle subsystem of the safalya backend
(`src/backend/src/controllers/contractController.js`).

Modelling choices:
* Database rows (Prisma models `ContractListing`, `Contract`, `Transaction`)
  become Lean structures; the relational store becomes lists of rows inside a
  `DB` structure.
* JavaScript numbers (quantity, price, amount) are embedded as `Int`.  The
  source stores them as floating-point values; the claims under study involve
  only the exact product quantity × price, which the embedding preserves, and
  no claim depends on fractional or rounding behaviour.
* Record identifiers are `Nat`.  The JS side uses cuid strings; a request-body
  field that is absent (or the empty string, which JavaScript treats as falsy
  in `requestId || id`) is embedded as `none`.
* `prisma.model.findFirst {where}` becomes `List.find?` with the same
  predicate; `prisma.model.update {where: {id}}` becomes a map that rewrites
  the rows with that id; `prisma.transaction.create` appends a row.
  `prisma.contractListing.update` throws when no row has the id, which the
  handler's catch turns into a 500 response; this is embedded by
  `setListingStatus` returning `none` in that case.
* An HTTP response is embedded as `ApiResult`: `ok` with the returned payload,
  or `err httpStatus errorCode` for the error envelope.
-/

structure Listing where
  id : Nat
  farmerId : Nat
  cropType : String
  quantity : Int
  unit : String
  expectedPrice : Int
  status : String
  deriving DecidableEq, Repr

structure Contract where
  id : Nat
  listingId : Nat
  farmerId : Nat
  buyerId : Nat
  cropType : String
  quantity : Int
  agreedPrice : Int
  totalAmount : Int
  status : String
  terms : Option String
  completedAt : Option Nat
  deriving DecidableEq, Repr

structure Txn where
  userId : Nat
  type : String
  category : String
  amount : Int
  description : String
  referenceId : Nat
  referenceType : String
  transactionDate : Nat
  deriving DecidableEq, Repr

structure DB where
  listings : List Listing
  contracts : List Contract
  transactions : List Txn
  deriving DecidableEq, Repr

structure User where
  id : Nat
  role : String
  deriving DecidableEq, Repr

/-- Outcome of a handler: `ok` with the response payload, or `err` with the
HTTP status code and the error envelope's `error.code` string. -/
inductive ApiResult (α : Type) where
  | ok : α → ApiResult α
  | err : Nat → String → ApiResult α
  deriving DecidableEq, Repr

/-- The HTTP status of an error response (`none` on success). -/
def ApiResult.errStatus {α : Type} : ApiResult α → Option Nat
  | .ok _ => none
  | .err n _ => some n

/-- JavaScript truthiness of an optional string field of the request body
(`undefined` and `""` are falsy). -/
def truthy : Option String → Bool
  | none => false
  | some s => !(s == "")

/-- JavaScript `a || b` on two optional string fields. -/
def jsOrStr (a b : Option String) : Option String :=
  if truthy a then a else b

/-- The conditional `note ? \x7b...existing + tag + note...\x7d : existing`
pattern used by reject/complete/cancel to update `terms`
(`contract.terms || ''` is the `getD ""`). -/
def appendNote (tag : String) (note : Option String) (terms : Option String) :
    Option String :=
  if truthy note then some ((terms.getD "") ++ tag ++ (note.getD ""))
  else terms

/-- `prisma.model.update \x7bwhere: \x7bid\x7d, data\x7d`: rewrite the rows carrying the id. -/
def updateById {α : Type} (key : α → Nat) (i : Nat) (f : α → α) (l : List α) :
    List α :=
  l.map fun x => if key x = i then f x else x

/-- `prisma.model.findUnique \x7bwhere: \x7bid\x7d\x7d`. -/
def lookupById {α : Type} (key : α → Nat) (i : Nat) (l : List α) : Option α :=
  l.find? fun x => key x == i

/-- `prisma.contractListing.update \x7bwhere: \x7bid\x7d, data: \x7bstatus\x7d\x7d`; `none` when no
listing has the id (Prisma throws, the handler answers 500). -/
def setListingStatus (lid : Nat) (st : String) (db : DB) : Option DB :=
  if db.listings.any (fun l => l.id == lid) then
    some { db with
           listings := updateById Listing.id lid (fun l => { l with status := st })
                         db.listings }
  else none

/-- `requestContract` (buyer requests a contract against listing `id`;
`nid` is the id the store assigns to the created contract row). -/
def requestContract (user : User) (id nid : Nat) (message terms : Option String)
    (db : DB) : DB × ApiResult Contract :=
  if user.role ≠ "buyer" then (db, .err 403 "FORBIDDEN")
  else
    match db.listings.find? (fun l => l.id == id) with
    | none => (db, .err 404 "NOT_FOUND")
    | some listing =>
      if listing.status ≠ "active" then (db, .err 400 "LISTING_UNAVAILABLE")
      else if listing.farmerId == user.id then (db, .err 400 "INVALID_REQUEST")
      else
        let c : Contract :=
          { id := nid
            listingId := listing.id
            farmerId := listing.farmerId
            buyerId := user.id
            cropType := listing.cropType
            quantity := listing.quantity
            agreedPrice := listing.expectedPrice
            totalAmount := listing.quantity * listing.expectedPrice
            status := "requested"
            terms := jsOrStr terms message
            completedAt := none }
        ({ db with contracts := db.contracts ++ [c] }, .ok c)

/-- The `where` filter of `acceptContract`'s `findFirst`
(`id: requestId || id, farmerId: req.user.id, status: 'requested'`). -/
def acceptGuard (user : User) (key : Nat) (c : Contract) : Bool :=
  c.id == key && c.farmerId == user.id && c.status == "requested"

/-- `acceptContract` (farmer accepts a requested contract; the body's
`requestId`, when present, is used in place of the path `id`). -/
def acceptContract (user : User) (id : Nat) (requestId : Option Nat) (db : DB) :
    DB × ApiResult Contract :=
  match db.contracts.find? (acceptGuard user (requestId.getD id)) with
  | none => (db, .err 404 "NOT_FOUND")
  | some contract =>
    let db1 : DB :=
      { db with contracts := updateById Contract.id contract.id
                  (fun c => { c with status := "accepted" }) db.contracts }
    match setListingStatus contract.listingId "contracted" db1 with
    | none => (db1, .err 500 "INTERNAL")
    | some db2 => (db2, .ok { contract with status := "accepted" })

/-- A schedule of storage faults for the sequential awaited writes of
accept/complete: `true` means that write throws (Prisma failure), which the
handler's `catch` turns into a 500 response, leaving the earlier writes in
place.  The source wraps none of these writes in a database transaction. -/
structure Faults where
  contractUpdate : Bool
  listingUpdate : Bool
  txnIncome : Bool
  txnExpense : Bool
  deriving DecidableEq, Repr

/-- The fault-free schedule. -/
def noFaults : Faults :=
  { contractUpdate := false, listingUpdate := false
    txnIncome := false, txnExpense := false }

/-- `acceptContract` under a fault schedule: each awaited write may throw,
aborting the remainder of the handler but keeping the earlier writes. -/
def acceptContractF (user : User) (id : Nat) (requestId : Option Nat)
    (fs : Faults) (db : DB) : DB × ApiResult Contract :=
  match db.contracts.find? (acceptGuard user (requestId.getD id)) with
  | none => (db, .err 404 "NOT_FOUND")
  | some contract =>
    if fs.contractUpdate then (db, .err 500 "INTERNAL")
    else
      let db1 : DB :=
        { db with contracts := updateById Contract.id contract.id
                    (fun c => { c with status := "accepted" }) db.contracts }
      if fs.listingUpdate then (db1, .err 500 "INTERNAL")
      else
        match setListingStatus contract.listingId "contracted" db1 with
        | none => (db1, .err 500 "INTERNAL")
        | some db2 => (db2, .ok { contract with status := "accepted" })

/-- The `where` filter of `rejectContract`'s `findFirst`. -/
def rejectGuard (user : User) (id : Nat) (c : Contract) : Bool :=
  c.id == id && (c.farmerId == user.id || c.buyerId == user.id) &&
    (c.status == "requested" || c.status == "accepted")

/-- `rejectContract` (either party rejects a requested/accepted contract). -/
def rejectContract (user : User) (id : Nat) (reason : Option String) (db : DB) :
    DB × ApiResult Unit :=
  match db.contracts.find? (rejectGuard user id) with
  | none => (db, .err 404 "NOT_FOUND")
  | some contract =>
    let newTerms := appendNote "\nRejection reason: " reason contract.terms
    let db1 : DB :=
      { db with contracts := updateById Contract.id contract.id
                  (fun c => { c with status := "cancelled", terms := newTerms })
                  db.contracts }
    if contract.status == "accepted" then
      match setListingStatus contract.listingId "active" db1 with
      | none => (db1, .err 500 "INTERNAL")
      | some db2 => (db2, .ok ())
    else (db1, .ok ())

/-- The `where` filter of `completeContract`'s `findFirst`. -/
def completeGuard (user : User) (id : Nat) (c : Contract) : Bool :=
  c.id == id && (c.farmerId == user.id || c.buyerId == user.id) &&
    (c.status == "accepted" || c.status == "in_progress")

/-- The income row `completeContract` inserts for the farmer. -/
def incomeTxn (c : Contract) (now : Nat) : Txn :=
  { userId := c.farmerId
    type := "income"
    category := "sale"
    amount := c.totalAmount
    description := "Sale of " ++ c.cropType ++ " - Contract " ++ toString c.id
    referenceId := c.id
    referenceType := "contract"
    transactionDate := now }

/-- The expense row `completeContract` inserts for the buyer. -/
def expenseTxn (c : Contract) (now : Nat) : Txn :=
  { userId := c.buyerId
    type := "expense"
    category := "purchase"
    amount := c.totalAmount
    description := "Purchase of " ++ c.cropType ++ " - Contract " ++ toString c.id
    referenceId := c.id
    referenceType := "contract"
    transactionDate := now }

/-- `completeContract` (either party completes an accepted/in_progress
contract; `now` is the current time used for `completedAt` and the
transaction dates). -/
def completeContract (user : User) (id : Nat) (deliveryProof : Option String)
    (now : Nat) (db : DB) : DB × ApiResult Contract :=
  match db.contracts.find? (completeGuard user id) with
  | none => (db, .err 404 "NOT_FOUND")
  | some contract =>
    let newTerms := appendNote "\nDelivery proof: " deliveryProof contract.terms
    let db1 : DB :=
      { db with contracts := updateById Contract.id contract.id
                  (fun c => { c with
                              status := "completed"
                              completedAt := some now
                              terms := newTerms })
                  db.contracts }
    match setListingStatus contract.listingId "completed" db1 with
    | none => (db1, .err 500 "INTERNAL")
    | some db2 =>
      let db3 : DB :=
        { db2 with transactions := db2.transactions ++
            [incomeTxn contract now, expenseTxn contract now] }
      (db3, .ok { contract with
                  status := "completed"
                  completedAt := some now
                  terms := newTerms })

/-- The `where` filter of `cancelContract`'s `findFirst`. -/
def cancelGuard (user : User) (id : Nat) (c : Contract) : Bool :=
  c.id == id && (c.farmerId == user.id || c.buyerId == user.id) &&
    !(c.status == "completed")

/-- `cancelContract` (either party cancels a non-completed contract). -/
def cancelContract (user : User) (id : Nat) (reason : Option String) (db : DB) :
    DB × ApiResult Unit :=
  match db.contracts.find? (cancelGuard user id) with
  | none => (db, .err 404 "NOT_FOUND")
  | some contract =>
    let newTerms := appendNote "\nCancellation reason: " reason contract.terms
    let db1 : DB :=
      { db with contracts := updateById Contract.id contract.id
                  (fun c => { c with status := "cancelled", terms := newTerms })
                  db.contracts }
    match lookupById Listing.id contract.listingId db1.listings with
    | none => (db1, .ok ())
    | some listing =>
      if listing.status == "contracted" then
        match setListingStatus contract.listingId "active" db1 with
        | none => (db1, .err 500 "INTERNAL")
        | some db2 => (db2, .ok ())
      else (db1, .ok ())

/-- `completeContract` under a fault schedule: contract update, listing
update, income insert and expense insert happen in this order as independent
writes; a faulting write aborts the rest but keeps what was already written. -/
def completeContractF (user : User) (id : Nat) (deliveryProof : Option String)
    (now : Nat) (fs : Faults) (db : DB) : DB × ApiResult Contract :=
  match db.contracts.find? (completeGuard user id) with
  | none => (db, .err 404 "NOT_FOUND")
  | some contract =>
    if fs.contractUpdate then (db, .err 500 "INTERNAL")
    else
      let newTerms := appendNote "\nDelivery proof: " deliveryProof contract.terms
      let db1 : DB :=
        { db with contracts := updateById Contract.id contract.id
                    (fun c => { c with
                                status := "completed"
                                completedAt := some now
                                terms := newTerms })
                    db.contracts }
      if fs.listingUpdate then (db1, .err 500 "INTERNAL")
      else
        match setListingStatus contract.listingId "completed" db1 with
        | none => (db1, .err 500 "INTERNAL")
        | some db2 =>
          if fs.txnIncome then (db2, .err 500 "INTERNAL")
          else
            let db3 : DB :=
              { db2 with transactions := db2.transactions ++ [incomeTxn contract now] }
            if fs.txnExpense then (db3, .err 500 "INTERNAL")
            else
              let db4 : DB :=
                { db3 with transactions := db3.transactions ++ [expenseTxn contract now] }
              (db4, .ok { contract with
                          status := "completed"
                          completedAt := some now
                          terms := newTerms })

/-! Concrete fixtures used by witnesses and counterexamples. -/

/-- A farmer (id 1). -/
def farmerU : User := { id := 1, role := "farmer" }

/-- A buyer (id 2). -/
def buyerU : User := { id := 2, role := "buyer" }

/-- A wheat listing (id 10) owned by farmer 1, in the given status. -/
def listingW (st : String) : Listing :=
  { id := 10, farmerId := 1, cropType := "wheat", quantity := 100, unit := "kg"
    expectedPrice := 20, status := st }

/-- A contract (listing 10, farmer 1, buyer 2) with the given id, status and
terms. -/
def contractW (cid : Nat) (st : String) (terms : Option String) : Contract :=
  { id := cid, listingId := 10, farmerId := 1, buyerId := 2, cropType := "wheat"
    quantity := 100, agreedPrice := 20, totalAmount := 2000, status := st
    terms := terms, completedAt := none }

/-- State: listing 10 active, no contracts. -/
def dbActive : DB :=
  { listings := [listingW "active"], contracts := [], transactions := [] }

/-- State: listing 10 contracted, no contracts (used for non-active-listing
requests). -/
def dbContracted : DB :=
  { listings := [listingW "contracted"], contracts := [], transactions := [] }

/-- State: listing 10 contracted, contract 1 accepted. -/
def dbAccepted : DB :=
  { listings := [listingW "contracted"]
    contracts := [contractW 1 "accepted" none]
    transactions := [] }

/-- State: listing 10 active, contract 1 requested with terms "T". -/
def dbRequestedT : DB :=
  { listings := [listingW "active"]
    contracts := [contractW 1 "requested" (some "T")]
    transactions := [] }

/-- State: listing 10 active, contracts 1 and 2 both requested. -/
def dbTwoRequested : DB :=
  { listings := [listingW "active"]
    contracts := [contractW 1 "requested" none, contractW 2 "requested" none]
    transactions := [] }

/-- State: listing 10 completed, contract 1 completed. -/
def dbCompleted : DB :=
  { listings := [listingW "completed"]
    contracts := [contractW 1 "completed" none]
    transactions := [] }

/-! Helper lemmas about the store primitives. -/

/-- After rewriting the rows with key `i` by `f` (a `f` that preserves the
key), looking up key `i` finds `f c`, provided `c` is the unique row with
that key. -/
theorem find_key_map_update {α : Type} (key : α → Nat) (i : Nat) (f : α → α)
    (hf : ∀ x, key (f x) = key x) :
    ∀ (l : List α) (c : α), c ∈ l → key c = i →
    (∀ x ∈ l, key x = i → x = c) →
    (l.map fun x => if key x = i then f x else x).find? (fun y => key y == i) =
      some (f c) := by
  intro l
  induction l with
  | nil => intro c hc _ _; cases hc
  | cons x xs ih =>
    intro c hc hci huniq
    by_cases hx : key x = i
    · have hxc : x = c := huniq x (List.mem_cons_self x xs) hx
      subst hxc
      simp only [List.map_cons, if_pos hx]
      rw [List.find?_cons_of_pos]
      simp [hf, hx]
    · have hcx : c ∈ xs := by
        rcases List.mem_cons.mp hc with h | h
        · exact absurd (by rw [← h]; exact hci) hx
        · exact h
      simp only [List.map_cons, if_neg hx]
      rw [List.find?_cons_of_neg _ (by simp [hx])]
      exact ih c hcx hci (fun y hy hyi => huniq y (List.mem_cons_of_mem x hy) hyi)

/-- `lookupById` after `updateById`, for the unique row with the key. -/
theorem lookup_updateById {α : Type} (key : α → Nat) (i : Nat) (f : α → α)
    (hf : ∀ x, key (f x) = key x) (l : List α) (c : α) (hc : c ∈ l)
    (hci : key c = i) (huniq : ∀ x ∈ l, key x = i → x = c) :
    lookupById key i (updateById key i f l) = some (f c) := by
  simp only [lookupById, updateById]
  exact find_key_map_update key i f hf l c hc hci huniq

/-- `setListingStatus` succeeds when the listing exists. -/
theorem setListingStatus_of_mem (lid : Nat) (st : String) (db : DB)
    (l : Listing) (hl : lookupById Listing.id lid db.listings = some l) :
    setListingStatus lid st db =
      some { db with
             listings := updateById Listing.id lid
                           (fun x => { x with status := st }) db.listings } := by
  simp only [lookupById] at hl
  have hmem : l ∈ db.listings := List.mem_of_find?_eq_some hl
  have hany : db.listings.any (fun x => x.id == lid) = true := by
    apply List.any_eq_true.mpr
    exact ⟨l, hmem, by simpa using List.find?_some hl⟩
  simp [setListingStatus, hany]

/-! Claim theorems. -/

/-- C3: the required invariant "at most one accepted/in_progress contract per
listing" is not enforced by the code: starting from listing 10 with two
requested contracts, `acceptContract` accepts the first, and then also
accepts the second against the same listing, leaving two accepted contracts
that reference listing 10. -/
theorem acceptContract_double_accept :
    (acceptContract farmerU 1 none dbTwoRequested).2 =
      .ok (contractW 1 "accepted" none) ∧
    (acceptContract farmerU 2 none
        (acceptContract farmerU 1 none dbTwoRequested).1).2 =
      .ok (contractW 2 "accepted" none) ∧
    (acceptContract farmerU 2 none
        (acceptContract farmerU 1 none dbTwoRequested).1).1.contracts =
      [contractW 1 "accepted" none, contractW 2 "accepted" none] ∧
    (contractW 1 "accepted" none).listingId = 10 ∧
    (contractW 2 "accepted" none).listingId = 10 := by
  decide

/-- C4: once every contract carrying the requested id is completed, a further
`completeContract` call fails with 404 (the status filter
\x7baccepted, in_progress\x7d no longer matches) and leaves the whole state —
in particular the transaction ledger — unchanged. -/
theorem completeContract_completed_noop (u : User) (id : Nat)
    (proof : Option String) (now : Nat) (db : DB)
    (h : ∀ c ∈ db.contracts, c.id = id → c.status = "completed") :
    completeContract u id proof now db = (db, .err 404 "NOT_FOUND") := by
  have hn : db.contracts.find? (completeGuard u id) = none := by
    apply List.find?_eq_none.mpr
    intro c hc hguard
    simp only [completeGuard, Bool.and_eq_true, Bool.or_eq_true,
      beq_iff_eq] at hguard
    obtain ⟨⟨hid, -⟩, hst⟩ := hguard
    have hcomp := h c hc hid
    rcases hst with h1 | h1 <;> simp [hcomp] at h1
  simp [completeContract, hn]

/-- Witness for C4 at a concrete completed contract. -/
theorem completeContract_completed_noop_witness :
    (∀ c ∈ dbCompleted.contracts, c.id = 1 → c.status = "completed") ∧
    completeContract farmerU 1 none 5 dbCompleted =
      (dbCompleted, .err 404 "NOT_FOUND") :=
  ⟨by decide, completeContract_completed_noop farmerU 1 none 5 dbCompleted
    (by decide)⟩

/-- C5 counterexample: on a non-active listing, `requestContract` fails with
HTTP 400 (`LISTING_UNAVAILABLE`), not with the HTTP 409 Conflict the claim
states. -/
theorem requestContract_inactive_status_is_400 :
    (requestContract buyerU 10 1 none none dbContracted).2 =
      .err 400 "LISTING_UNAVAILABLE" ∧
    ((requestContract buyerU 10 1 none none dbContracted).2).errStatus ≠
      some 409 := by
  decide

/-- C5 amended: for every listing whose status is not active, a buyer's
`requestContract` fails with HTTP 400 (`LISTING_UNAVAILABLE`) and leaves the
state — in particular the contract table — unchanged. -/
theorem requestContract_inactive_fails (u : User) (id nid : Nat)
    (msg terms : Option String) (db : DB) (l : Listing)
    (hrole : u.role = "buyer")
    (hl : db.listings.find? (fun x => x.id == id) = some l)
    (hst : l.status ≠ "active") :
    requestContract u id nid msg terms db =
      (db, .err 400 "LISTING_UNAVAILABLE") := by
  simp [requestContract, hrole, hl, hst]

/-- Witness for the amended C5 at the contracted listing 10. -/
theorem requestContract_inactive_fails_witness :
    buyerU.role = "buyer" ∧
    dbContracted.listings.find? (fun x => x.id == 10) =
      some (listingW "contracted") ∧
    (listingW "contracted").status ≠ "active" ∧
    requestContract buyerU 10 1 none none dbContracted =
      (dbContracted, .err 400 "LISTING_UNAVAILABLE") :=
  ⟨rfl, by decide, by decide,
    requestContract_inactive_fails buyerU 10 1 none none dbContracted
      (listingW "contracted") rfl (by decide) (by decide)⟩

/-- C7 counterexample: a self-dealing request (the caller is the listing's
farmer) is answered with HTTP 400 (`INVALID_REQUEST`), not with the HTTP 403
Forbidden the claim states. -/
theorem requestContract_selfdeal_status_is_400 :
    (requestContract { id := 1, role := "buyer" } 10 1 none none dbActive).2 =
      .err 400 "INVALID_REQUEST" ∧
    ((requestContract { id := 1, role := "buyer" } 10 1 none none
        dbActive).2).errStatus ≠ some 403 := by
  decide

/-- C7 amended: a caller whose role is not buyer is refused with HTTP 403
(`FORBIDDEN`); a buyer requesting their own active listing is refused with
HTTP 400 (`INVALID_REQUEST`); in both cases the state is unchanged. -/
theorem requestContract_role_and_selfdeal (u : User) (id nid : Nat)
    (msg terms : Option String) (db : DB) :
    (u.role ≠ "buyer" →
      requestContract u id nid msg terms db = (db, .err 403 "FORBIDDEN")) ∧
    (∀ l : Listing, u.role = "buyer" →
      db.listings.find? (fun x => x.id == id) = some l →
      l.status = "active" → l.farmerId = u.id →
      requestContract u id nid msg terms db =
        (db, .err 400 "INVALID_REQUEST")) := by
  constructor
  · intro hrole
    simp [requestContract, hrole]
  · intro l hrole hl hst hown
    simp [requestContract, hrole, hl, hst, hown]

/-- Witness for the amended C7: a farmer caller gets 403; a buyer who owns
listing 10 gets 400. -/
theorem requestContract_role_and_selfdeal_witness :
    (farmerU.role ≠ "buyer" ∧
      requestContract farmerU 10 1 none none dbActive =
        (dbActive, .err 403 "FORBIDDEN")) ∧
    (({ id := 1, role := "buyer" } : User).role = "buyer" ∧
      dbActive.listings.find? (fun x => x.id == 10) =
        some (listingW "active") ∧
      (listingW "active").status = "active" ∧
      (listingW "active").farmerId = ({ id := 1, role := "buyer" } : User).id ∧
      requestContract { id := 1, role := "buyer" } 10 1 none none dbActive =
        (dbActive, .err 400 "INVALID_REQUEST")) :=
  ⟨⟨by decide,
      (requestContract_role_and_selfdeal farmerU 10 1 none none dbActive).1
        (by decide)⟩,
    ⟨rfl, by decide, rfl, rfl,
      (requestContract_role_and_selfdeal { id := 1, role := "buyer" } 10 1
          none none dbActive).2 (listingW "active") rfl (by decide) rfl rfl⟩⟩

/-- C9 counterexample: with path id 1 and body `requestId` 2, the contract
that gets accepted is contract 2, not contract 1 — the request body does
change which contract is accepted. -/
theorem acceptContract_body_overrides_path :
    (acceptContract farmerU 1 (some 2) dbTwoRequested).1.contracts =
      [contractW 1 "requested" none, contractW 2 "accepted" none] ∧
    (acceptContract farmerU 1 none dbTwoRequested).1.contracts =
      [contractW 1 "accepted" none, contractW 2 "requested" none] := by
  decide

/-- C9 amended: the contract acted on by `acceptContract` is determined by
the body's `requestId` when that field is present, and by the path identifier
only when it is absent; the whole call behaves exactly as a call on that
single canonical identifier. -/
theorem acceptContract_canonical_id (u : User) (id : Nat) (rid : Option Nat)
    (db : DB) :
    acceptContract u id rid db = acceptContract u (rid.getD id) none db :=
  rfl

/-- `setListingStatus` only touches the listings table. -/
theorem setListingStatus_frame (lid : Nat) (st : String) (db db2 : DB)
    (h : setListingStatus lid st db = some db2) :
    db2.contracts = db.contracts ∧ db2.transactions = db.transactions := by
  simp only [setListingStatus] at h
  split at h
  · cases h; exact ⟨rfl, rfl⟩
  · cases h

/-- C6: a successful `requestContract` on an active listing creates a
contract whose crop type, quantity and agreed price are the listing's values
at call time, whose total amount is quantity × price, and which is appended
to the contract table; replacing the listings table afterwards (any later
listing edit) leaves the contract table — hence every field of the created
contract — unchanged. -/
theorem requestContract_snapshot (u : User) (id nid : Nat)
    (msg terms : Option String) (db : DB) (l : Listing)
    (hrole : u.role = "buyer")
    (hl : db.listings.find? (fun x => x.id == id) = some l)
    (hst : l.status = "active")
    (hown : l.farmerId ≠ u.id) :
    ∃ c : Contract,
      (requestContract u id nid msg terms db).2 = .ok c ∧
      c.cropType = l.cropType ∧
      c.quantity = l.quantity ∧
      c.agreedPrice = l.expectedPrice ∧
      c.totalAmount = l.quantity * l.expectedPrice ∧
      (requestContract u id nid msg terms db).1.contracts =
        db.contracts ++ [c] ∧
      (∀ ls2 : List Listing,
        ({ (requestContract u id nid msg terms db).1 with
           listings := ls2 } : DB).contracts = db.contracts ++ [c]) := by
  have hres : requestContract u id nid msg terms db =
      ({ db with contracts := db.contracts ++
          [{ id := nid
             listingId := l.id
             farmerId := l.farmerId
             buyerId := u.id
             cropType := l.cropType
             quantity := l.quantity
             agreedPrice := l.expectedPrice
             totalAmount := l.quantity * l.expectedPrice
             status := "requested"
             terms := jsOrStr terms msg
             completedAt := none }] },
        .ok { id := nid
              listingId := l.id
              farmerId := l.farmerId
              buyerId := u.id
              cropType := l.cropType
              quantity := l.quantity
              agreedPrice := l.expectedPrice
              totalAmount := l.quantity * l.expectedPrice
              status := "requested"
              terms := jsOrStr terms msg
              completedAt := none }) := by
    simp [requestContract, hrole, hl, hst, hown]
  rw [hres]
  exact ⟨_, rfl, rfl, rfl, rfl, rfl, rfl, fun ls2 => rfl⟩

/-- Witness for C6: listing 10 (quantity 100 at price 20) yields a contract
with total amount 2000. -/
theorem requestContract_snapshot_witness :
    buyerU.role = "buyer" ∧
    dbActive.listings.find? (fun x => x.id == 10) = some (listingW "active") ∧
    (listingW "active").status = "active" ∧
    (listingW "active").farmerId ≠ buyerU.id ∧
    (listingW "active").quantity = 100 ∧
    (listingW "active").expectedPrice = 20 ∧
    (100 : Int) * 20 = 2000 ∧
    (∃ c : Contract,
      (requestContract buyerU 10 1 none none dbActive).2 = .ok c ∧
      c.cropType = (listingW "active").cropType ∧
      c.quantity = (listingW "active").quantity ∧
      c.agreedPrice = (listingW "active").expectedPrice ∧
      c.totalAmount =
        (listingW "active").quantity * (listingW "active").expectedPrice ∧
      (requestContract buyerU 10 1 none none dbActive).1.contracts =
        dbActive.contracts ++ [c] ∧
      (∀ ls2 : List Listing,
        ({ (requestContract buyerU 10 1 none none dbActive).1 with
           listings := ls2 } : DB).contracts = dbActive.contracts ++ [c])) :=
  ⟨rfl, by decide, rfl, by decide, rfl, rfl, by decide,
    requestContract_snapshot buyerU 10 1 none none dbActive (listingW "active")
      rfl (by decide) rfl (by decide)⟩

/-- C2: the multi-record effects of accept/complete are not all-or-nothing.
The fault-schedule semantics agrees with the handlers when no write faults
(first two conjuncts, grounding the model); yet when the listing write faults
during `completeContract` on the accepted contract 1, the state keeps the
contract completed while listing 10 is still `contracted` and no ledger entry
exists, and when the listing write faults during `acceptContract`, the
contract is accepted while listing 10 is still `active` — partial effects
are observable, contradicting the claim. -/
theorem accept_complete_not_atomic :
    (∀ (u : User) (id : Nat) (p : Option String) (now : Nat) (db : DB),
      completeContractF u id p now noFaults db = completeContract u id p now db) ∧
    (∀ (u : User) (id : Nat) (rid : Option Nat) (db : DB),
      acceptContractF u id rid noFaults db = acceptContract u id rid db) ∧
    ((completeContractF farmerU 1 none 5
        { noFaults with listingUpdate := true } dbAccepted).2 =
      .err 500 "INTERNAL" ∧
     (lookupById Contract.id 1 (completeContractF farmerU 1 none 5
        { noFaults with listingUpdate := true } dbAccepted).1.contracts).map
        Contract.status = some "completed" ∧
     (lookupById Listing.id 10 (completeContractF farmerU 1 none 5
        { noFaults with listingUpdate := true } dbAccepted).1.listings).map
        Listing.status = some "contracted" ∧
     (completeContractF farmerU 1 none 5
        { noFaults with listingUpdate := true } dbAccepted).1.transactions =
       []) ∧
    ((acceptContractF farmerU 1 none
        { noFaults with listingUpdate := true } dbTwoRequested).2 =
      .err 500 "INTERNAL" ∧
     (lookupById Contract.id 1 (acceptContractF farmerU 1 none
        { noFaults with listingUpdate := true } dbTwoRequested).1.contracts).map
        Contract.status = some "accepted" ∧
     (lookupById Listing.id 10 (acceptContractF farmerU 1 none
        { noFaults with listingUpdate := true } dbTwoRequested).1.listings).map
        Listing.status = some "active") := by
  refine ⟨?_, ?_, by decide, by decide⟩
  · intro u id p now db
    unfold completeContractF completeContract
    cases h : db.contracts.find? (completeGuard u id) <;>
      simp [noFaults]
  · intro u id rid db
    unfold acceptContractF acceptContract
    cases h : db.contracts.find? (acceptGuard u (rid.getD id)) <;>
      simp [noFaults]

/-- `setListingStatus` on a constructor-form state, when the listing is
present. -/
theorem setListingStatus_mk (lid : Nat) (st : String) (ls : List Listing)
    (cs : List Contract) (ts : List Txn) (l : Listing)
    (hl : lookupById Listing.id lid ls = some l) :
    setListingStatus lid st ⟨ls, cs, ts⟩ =
      some ⟨updateById Listing.id lid (fun x => { x with status := st }) ls,
            cs, ts⟩ :=
  setListingStatus_of_mem lid st ⟨ls, cs, ts⟩ l hl

/-- C1: for a contract matched by `completeContract`'s guard (status accepted
or in_progress, caller its farmer or buyer), when the contract id is unique
in the contract table and its listing exists uniquely, the successful call
stores the contract with status completed and the completion timestamp set,
sets the listing's status to completed, and appends exactly one income entry
(amount = totalAmount, userId = farmerId) and one expense entry (same amount,
userId = buyerId) to the ledger, both referencing the contract id. -/
theorem completeContract_success_effects (u : User) (id : Nat)
    (proof : Option String) (now : Nat) (db : DB) (c : Contract) (l : Listing)
    (hfind : db.contracts.find? (completeGuard u id) = some c)
    (huc : ∀ x ∈ db.contracts, x.id = c.id → x = c)
    (hl : lookupById Listing.id c.listingId db.listings = some l)
    (hul : ∀ x ∈ db.listings, x.id = c.listingId → x = l) :
    ∃ t : Contract,
      (completeContract u id proof now db).2 = .ok t ∧
      lookupById Contract.id c.id
        (completeContract u id proof now db).1.contracts = some t ∧
      t.status = "completed" ∧
      t.completedAt = some now ∧
      lookupById Listing.id c.listingId
        (completeContract u id proof now db).1.listings =
        some { l with status := "completed" } ∧
      (completeContract u id proof now db).1.transactions =
        db.transactions ++ [incomeTxn c now, expenseTxn c now] ∧
      (incomeTxn c now).type = "income" ∧
      (incomeTxn c now).amount = c.totalAmount ∧
      (incomeTxn c now).userId = c.farmerId ∧
      (incomeTxn c now).referenceId = c.id ∧
      (expenseTxn c now).type = "expense" ∧
      (expenseTxn c now).amount = c.totalAmount ∧
      (expenseTxn c now).userId = c.buyerId ∧
      (expenseTxn c now).referenceId = c.id := by
  have hmem : c ∈ db.contracts := List.mem_of_find?_eq_some hfind
  have hlmem : l ∈ db.listings := by
    simp only [lookupById] at hl
    exact List.mem_of_find?_eq_some hl
  have hlid : l.id = c.listingId := by
    have hl2 := hl
    simp only [lookupById] at hl2
    simpa using List.find?_some hl2
  have hres : completeContract u id proof now db =
      ({ listings := updateById Listing.id c.listingId
           (fun x => { x with status := "completed" }) db.listings
         contracts := updateById Contract.id c.id
           (fun x => { x with
                       status := "completed"
                       completedAt := some now
                       terms := appendNote "\nDelivery proof: " proof c.terms })
           db.contracts
         transactions := db.transactions ++
           [incomeTxn c now, expenseTxn c now] },
       .ok { c with
             status := "completed"
             completedAt := some now
             terms := appendNote "\nDelivery proof: " proof c.terms }) := by
    simp only [completeContract, hfind]
    rw [setListingStatus_mk c.listingId "completed" db.listings _ _ l hl]
  rw [hres]
  refine ⟨_, rfl, ?_, rfl, rfl, ?_, rfl, rfl, rfl, rfl, rfl, rfl, rfl, rfl,
    rfl⟩
  · exact lookup_updateById Contract.id c.id
      (fun x => { x with status := "completed", completedAt := some now, terms := appendNote "\nDelivery proof: " proof c.terms })
      (fun x => rfl) db.contracts c hmem rfl huc
  · exact lookup_updateById Listing.id c.listingId
      (fun x => { x with status := "completed" }) (fun x => rfl) db.listings l
      hlmem hlid hul

/-- Witness for C1: farmer 1 completes the accepted contract 1 against
listing 10. -/
theorem completeContract_success_effects_witness :
    dbAccepted.contracts.find? (completeGuard farmerU 1) =
      some (contractW 1 "accepted" none) ∧
    (∀ x ∈ dbAccepted.contracts,
      x.id = (contractW 1 "accepted" none).id → x = contractW 1 "accepted" none) ∧
    lookupById Listing.id (contractW 1 "accepted" none).listingId
      dbAccepted.listings = some (listingW "contracted") ∧
    (∀ x ∈ dbAccepted.listings,
      x.id = (contractW 1 "accepted" none).listingId →
        x = listingW "contracted") ∧
    (∃ t : Contract,
      (completeContract farmerU 1 none 5 dbAccepted).2 = .ok t ∧
      lookupById Contract.id (contractW 1 "accepted" none).id
        (completeContract farmerU 1 none 5 dbAccepted).1.contracts = some t ∧
      t.status = "completed" ∧
      t.completedAt = some 5 ∧
      lookupById Listing.id (contractW 1 "accepted" none).listingId
        (completeContract farmerU 1 none 5 dbAccepted).1.listings =
        some { listingW "contracted" with status := "completed" } ∧
      (completeContract farmerU 1 none 5 dbAccepted).1.transactions =
        dbAccepted.transactions ++
          [incomeTxn (contractW 1 "accepted" none) 5,
           expenseTxn (contractW 1 "accepted" none) 5] ∧
      (incomeTxn (contractW 1 "accepted" none) 5).type = "income" ∧
      (incomeTxn (contractW 1 "accepted" none) 5).amount =
        (contractW 1 "accepted" none).totalAmount ∧
      (incomeTxn (contractW 1 "accepted" none) 5).userId =
        (contractW 1 "accepted" none).farmerId ∧
      (incomeTxn (contractW 1 "accepted" none) 5).referenceId =
        (contractW 1 "accepted" none).id ∧
      (expenseTxn (contractW 1 "accepted" none) 5).type = "expense" ∧
      (expenseTxn (contractW 1 "accepted" none) 5).amount =
        (contractW 1 "accepted" none).totalAmount ∧
      (expenseTxn (contractW 1 "accepted" none) 5).userId =
        (contractW 1 "accepted" none).buyerId ∧
      (expenseTxn (contractW 1 "accepted" none) 5).referenceId =
        (contractW 1 "accepted" none).id) :=
  ⟨by decide, by decide, by decide, by decide,
    completeContract_success_effects farmerU 1 none 5 dbAccepted
      (contractW 1 "accepted" none) (listingW "contracted") (by decide)
      (by decide) (by decide) (by decide)⟩

/-- Whatever happens on the listing side, `rejectContract` rewrites the
matched contract to cancelled with the reason note applied. -/
theorem rejectContract_contracts (u : User) (id : Nat)
    (reason : Option String) (db : DB) (c : Contract)
    (hfind : db.contracts.find? (rejectGuard u id) = some c) :
    (rejectContract u id reason db).1.contracts =
      updateById Contract.id c.id
        (fun x => { x with status := "cancelled", terms := appendNote "\nRejection reason: " reason c.terms })
        db.contracts := by
  simp only [rejectContract, hfind]
  split
  · split
    · rfl
    · rename_i db2 heq
      exact (setListingStatus_frame _ _ _ _ heq).1
  · rfl

/-- Whatever happens on the listing/ledger side, `completeContract` rewrites
the matched contract to completed with timestamp and proof note applied. -/
theorem completeContract_contracts (u : User) (id : Nat)
    (proof : Option String) (now : Nat) (db : DB) (c : Contract)
    (hfind : db.contracts.find? (completeGuard u id) = some c) :
    (completeContract u id proof now db).1.contracts =
      updateById Contract.id c.id
        (fun x => { x with status := "completed", completedAt := some now, terms := appendNote "\nDelivery proof: " proof c.terms })
        db.contracts := by
  simp only [completeContract, hfind]
  split
  · rfl
  · rename_i db2 heq
    exact (setListingStatus_frame _ _ _ _ heq).1

/-- Whatever happens on the listing side, `cancelContract` rewrites the
matched contract to cancelled with the reason note applied. -/
theorem cancelContract_contracts (u : User) (id : Nat)
    (reason : Option String) (db : DB) (c : Contract)
    (hfind : db.contracts.find? (cancelGuard u id) = some c) :
    (cancelContract u id reason db).1.contracts =
      updateById Contract.id c.id
        (fun x => { x with status := "cancelled", terms := appendNote "\nCancellation reason: " reason c.terms })
        db.contracts := by
  simp only [cancelContract, hfind]
  split
  · rfl
  · split
    · split
      · rfl
      · rename_i db2 heq
        exact (setListingStatus_frame _ _ _ _ heq).1
    · rfl

/-- On a previously accepted contract, `rejectContract` sets its listing back
to active. -/
theorem rejectContract_accepted_listings (u : User) (id : Nat)
    (reason : Option String) (db : DB) (c : Contract) (l : Listing)
    (hfind : db.contracts.find? (rejectGuard u id) = some c)
    (hst : c.status = "accepted")
    (hl : lookupById Listing.id c.listingId db.listings = some l) :
    (rejectContract u id reason db).1.listings =
      updateById Listing.id c.listingId (fun x => { x with status := "active" })
        db.listings := by
  simp only [rejectContract, hfind, hst]
  rw [setListingStatus_mk c.listingId "active" db.listings _ _ l hl]
  rfl

/-- On a requested contract, `rejectContract` leaves the listings table
alone. -/
theorem rejectContract_requested_listings (u : User) (id : Nat)
    (reason : Option String) (db : DB) (c : Contract)
    (hfind : db.contracts.find? (rejectGuard u id) = some c)
    (hst : c.status = "requested") :
    (rejectContract u id reason db).1.listings = db.listings := by
  simp only [rejectContract, hfind, hst]
  rfl

/-- C8: with the matched contract unique by id and its listing unique by id,
`rejectContract` on an accepted contract sets the contract to cancelled and
reverts the listing to active, while on a requested contract it sets the
contract to cancelled and leaves the listings table exactly unchanged. -/
theorem rejectContract_listing_effect (u : User) (id : Nat)
    (reason : Option String) (db : DB) (c : Contract) (l : Listing)
    (hfind : db.contracts.find? (rejectGuard u id) = some c)
    (huc : ∀ x ∈ db.contracts, x.id = c.id → x = c)
    (hl : lookupById Listing.id c.listingId db.listings = some l)
    (hul : ∀ x ∈ db.listings, x.id = c.listingId → x = l) :
    (c.status = "accepted" →
      (lookupById Contract.id c.id
        (rejectContract u id reason db).1.contracts).map Contract.status =
        some "cancelled" ∧
      (lookupById Listing.id c.listingId
        (rejectContract u id reason db).1.listings).map Listing.status =
        some "active") ∧
    (c.status = "requested" →
      (lookupById Contract.id c.id
        (rejectContract u id reason db).1.contracts).map Contract.status =
        some "cancelled" ∧
      (rejectContract u id reason db).1.listings = db.listings) := by
  have hmem : c ∈ db.contracts := List.mem_of_find?_eq_some hfind
  have hlmem : l ∈ db.listings := by
    have hl2 := hl
    simp only [lookupById] at hl2
    exact List.mem_of_find?_eq_some hl2
  have hlid : l.id = c.listingId := by
    have hl2 := hl
    simp only [lookupById] at hl2
    simpa using List.find?_some hl2
  have hcup := rejectContract_contracts u id reason db c hfind
  have hclk : lookupById Contract.id c.id
      (rejectContract u id reason db).1.contracts =
      some { c with status := "cancelled", terms := appendNote "\nRejection reason: " reason c.terms } := by
    rw [hcup]
    exact lookup_updateById Contract.id c.id
      (fun x => { x with status := "cancelled", terms := appendNote "\nRejection reason: " reason c.terms })
      (fun x => rfl) db.contracts c hmem rfl huc
  constructor
  · intro hst
    refine ⟨by rw [hclk]; rfl, ?_⟩
    rw [rejectContract_accepted_listings u id reason db c l hfind hst hl]
    have := lookup_updateById Listing.id c.listingId
      (fun x => { x with status := "active" }) (fun x => rfl) db.listings l
      hlmem hlid hul
    rw [this]
    rfl
  · intro hst
    refine ⟨by rw [hclk]; rfl, ?_⟩
    exact rejectContract_requested_listings u id reason db c hfind hst

/-- Witness for C8: buyer 2 rejects the accepted contract 1 (listing reverts
to active); farmer 1 rejects the requested contract 1 (listings untouched). -/
theorem rejectContract_listing_effect_witness :
    dbAccepted.contracts.find? (rejectGuard buyerU 1) =
      some (contractW 1 "accepted" none) ∧
    ((lookupById Contract.id 1
        (rejectContract buyerU 1 none dbAccepted).1.contracts).map
        Contract.status = some "cancelled" ∧
      (lookupById Listing.id 10
        (rejectContract buyerU 1 none dbAccepted).1.listings).map
        Listing.status = some "active") ∧
    dbRequestedT.contracts.find? (rejectGuard farmerU 1) =
      some (contractW 1 "requested" (some "T")) ∧
    ((lookupById Contract.id 1
        (rejectContract farmerU 1 none dbRequestedT).1.contracts).map
        Contract.status = some "cancelled" ∧
      (rejectContract farmerU 1 none dbRequestedT).1.listings =
        dbRequestedT.listings) :=
  ⟨by decide,
    (rejectContract_listing_effect buyerU 1 none dbAccepted
      (contractW 1 "accepted" none) (listingW "contracted") (by decide)
      (by decide) (by decide) (by decide)).1 rfl,
    by decide,
    (rejectContract_listing_effect farmerU 1 none dbRequestedT
      (contractW 1 "requested" (some "T")) (listingW "active") (by decide)
      (by decide) (by decide) (by decide)).2 rfl⟩

/-- C10 counterexample: the reason argument is present (the empty string),
the reject succeeds, yet the terms field is left unchanged — no note is
appended (JavaScript truthiness treats `""` like an absent reason). -/
theorem rejectContract_empty_note_kept :
    (rejectContract farmerU 1 (some "") dbRequestedT).2 = .ok () ∧
    (lookupById Contract.id 1
      (rejectContract farmerU 1 (some "") dbRequestedT).1.contracts).map
      Contract.terms = some (some "T") ∧
    some (some "T") ≠ some (some ("T" ++ "\nRejection reason: ")) := by
  decide

/-- C10 amended: for reject, cancel and complete, when the optional
reason/deliveryProof is absent (or empty, which the code treats as absent)
the stored contract's terms are exactly unchanged, and when it is present and
non-empty the note is appended to the existing terms text (empty text for a
null terms field), never replacing it. -/
theorem lifecycle_terms_note_policy :
    (∀ (u : User) (id : Nat) (reason : Option String) (db : DB) (c : Contract),
      db.contracts.find? (rejectGuard u id) = some c →
      (∀ x ∈ db.contracts, x.id = c.id → x = c) →
      (reason = none ∨ reason = some "" →
        (lookupById Contract.id c.id
          (rejectContract u id reason db).1.contracts).map Contract.terms =
          some c.terms) ∧
      (∀ s : String, reason = some s → s ≠ "" →
        (lookupById Contract.id c.id
          (rejectContract u id reason db).1.contracts).map Contract.terms =
          some (some ((c.terms.getD "") ++ "\nRejection reason: " ++ s)))) ∧
    (∀ (u : User) (id : Nat) (reason : Option String) (db : DB) (c : Contract),
      db.contracts.find? (cancelGuard u id) = some c →
      (∀ x ∈ db.contracts, x.id = c.id → x = c) →
      (reason = none ∨ reason = some "" →
        (lookupById Contract.id c.id
          (cancelContract u id reason db).1.contracts).map Contract.terms =
          some c.terms) ∧
      (∀ s : String, reason = some s → s ≠ "" →
        (lookupById Contract.id c.id
          (cancelContract u id reason db).1.contracts).map Contract.terms =
          some (some ((c.terms.getD "") ++ "\nCancellation reason: " ++ s)))) ∧
    (∀ (u : User) (id : Nat) (proof : Option String) (now : Nat) (db : DB)
        (c : Contract),
      db.contracts.find? (completeGuard u id) = some c →
      (∀ x ∈ db.contracts, x.id = c.id → x = c) →
      (proof = none ∨ proof = some "" →
        (lookupById Contract.id c.id
          (completeContract u id proof now db).1.contracts).map Contract.terms =
          some c.terms) ∧
      (∀ s : String, proof = some s → s ≠ "" →
        (lookupById Contract.id c.id
          (completeContract u id proof now db).1.contracts).map Contract.terms =
          some (some ((c.terms.getD "") ++ "\nDelivery proof: " ++ s)))) := by
  refine ⟨?_, ?_, ?_⟩
  · intro u id reason db c hfind huc
    have hmem : c ∈ db.contracts := List.mem_of_find?_eq_some hfind
    have hclk : lookupById Contract.id c.id
        (rejectContract u id reason db).1.contracts =
        some { c with status := "cancelled", terms := appendNote "\nRejection reason: " reason c.terms } := by
      rw [rejectContract_contracts u id reason db c hfind]
      exact lookup_updateById Contract.id c.id
        (fun x => { x with status := "cancelled", terms := appendNote "\nRejection reason: " reason c.terms })
        (fun x => rfl) db.contracts c hmem rfl huc
    constructor
    · intro hr
      rcases hr with rfl | rfl <;> rw [hclk] <;> rfl
    · intro s hr hs
      subst hr
      rw [hclk]
      simp [appendNote, truthy, hs]
  · intro u id reason db c hfind huc
    have hmem : c ∈ db.contracts := List.mem_of_find?_eq_some hfind
    have hclk : lookupById Contract.id c.id
        (cancelContract u id reason db).1.contracts =
        some { c with status := "cancelled", terms := appendNote "\nCancellation reason: " reason c.terms } := by
      rw [cancelContract_contracts u id reason db c hfind]
      exact lookup_updateById Contract.id c.id
        (fun x => { x with status := "cancelled", terms := appendNote "\nCancellation reason: " reason c.terms })
        (fun x => rfl) db.contracts c hmem rfl huc
    constructor
    · intro hr
      rcases hr with rfl | rfl <;> rw [hclk] <;> rfl
    · intro s hr hs
      subst hr
      rw [hclk]
      simp [appendNote, truthy, hs]
  · intro u id proof now db c hfind huc
    have hmem : c ∈ db.contracts := List.mem_of_find?_eq_some hfind
    have hclk : lookupById Contract.id c.id
        (completeContract u id proof now db).1.contracts =
        some { c with status := "completed", completedAt := some now, terms := appendNote "\nDelivery proof: " proof c.terms } := by
      rw [completeContract_contracts u id proof now db c hfind]
      exact lookup_updateById Contract.id c.id
        (fun x => { x with status := "completed", completedAt := some now, terms := appendNote "\nDelivery proof: " proof c.terms })
        (fun x => rfl) db.contracts c hmem rfl huc
    constructor
    · intro hr
      rcases hr with rfl | rfl <;> rw [hclk] <;> rfl
    · intro s hr hs
      subst hr
      rw [hclk]
      simp [appendNote, truthy, hs]

/-- Witness for the amended C10: for each of reject, cancel and complete,
an absent note and an empty note both leave terms exactly unchanged, and a
non-empty note is appended to the existing text. -/
theorem lifecycle_terms_note_policy_witness :
    dbRequestedT.contracts.find? (rejectGuard farmerU 1) =
      some (contractW 1 "requested" (some "T")) ∧
    (∀ x ∈ dbRequestedT.contracts,
      x.id = (contractW 1 "requested" (some "T")).id →
        x = contractW 1 "requested" (some "T")) ∧
    (lookupById Contract.id 1
      (rejectContract farmerU 1 none dbRequestedT).1.contracts).map
      Contract.terms = some (some "T") ∧
    (lookupById Contract.id 1
      (rejectContract farmerU 1 (some "") dbRequestedT).1.contracts).map
      Contract.terms = some (some "T") ∧
    (lookupById Contract.id 1
      (rejectContract farmerU 1 (some "why") dbRequestedT).1.contracts).map
      Contract.terms = some (some ("T" ++ "\nRejection reason: " ++ "why")) ∧
    dbAccepted.contracts.find? (cancelGuard buyerU 1) =
      some (contractW 1 "accepted" none) ∧
    dbAccepted.contracts.find? (completeGuard farmerU 1) =
      some (contractW 1 "accepted" none) ∧
    (∀ x ∈ dbAccepted.contracts,
      x.id = (contractW 1 "accepted" none).id →
        x = contractW 1 "accepted" none) ∧
    (lookupById Contract.id 1
      (cancelContract buyerU 1 (some "") dbAccepted).1.contracts).map
      Contract.terms = some none ∧
    (lookupById Contract.id 1
      (cancelContract buyerU 1 (some "stop") dbAccepted).1.contracts).map
      Contract.terms =
      some (some ("" ++ "\nCancellation reason: " ++ "stop")) ∧
    (lookupById Contract.id 1
      (completeContract farmerU 1 none 5 dbAccepted).1.contracts).map
      Contract.terms = some none ∧
    (lookupById Contract.id 1
      (completeContract farmerU 1 (some "") 5 dbAccepted).1.contracts).map
      Contract.terms = some none :=
  ⟨by decide, by decide,
    (lifecycle_terms_note_policy.1 farmerU 1 none dbRequestedT
      (contractW 1 "requested" (some "T")) (by decide) (by decide)).1
      (Or.inl rfl),
    (lifecycle_terms_note_policy.1 farmerU 1 (some "") dbRequestedT
      (contractW 1 "requested" (some "T")) (by decide) (by decide)).1
      (Or.inr rfl),
    (lifecycle_terms_note_policy.1 farmerU 1 (some "why") dbRequestedT
      (contractW 1 "requested" (some "T")) (by decide) (by decide)).2 "why"
      rfl (by decide),
    by decide, by decide, by decide,
    (lifecycle_terms_note_policy.2.1 buyerU 1 (some "") dbAccepted
      (contractW 1 "accepted" none) (by decide) (by decide)).1 (Or.inr rfl),
    (lifecycle_terms_note_policy.2.1 buyerU 1 (some "stop") dbAccepted
      (contractW 1 "accepted" none) (by decide) (by decide)).2 "stop" rfl
      (by decide),
    (lifecycle_terms_note_policy.2.2 farmerU 1 none 5 dbAccepted
      (contractW 1 "accepted" none) (by decide) (by decide)).1 (Or.inl rfl),
    (lifecycle_terms_note_policy.2.2 farmerU 1 (some "") 5 dbAccepted
      (contractW 1 "accepted" none) (by decide) (by decide)).1 (Or.inr rfl)⟩
